import Mathlib

/-!
Shallow embedding of the client-side UI controllers for the
"Loan Disbursement" document type:

* `src/lending/loan_management/doctype/loan_disbursement/loan_disbursement.js`
  (form hooks `setup`, `refresh`, and the `make_repayment_entry` handler), and
* `src/lending/loan_management/doctype/loan_disbursement/loan_disbursement_list.js`
  (the list-view `get_indicator` resolver).

String-valued document fields that JavaScript may see as `null`/`undefined`
are embedded as `Option String`; `none` stands for the absent value and
`some s` for the string `s`.  JavaScript truthiness of such a field
(`none` and the empty string are falsy) and the loose comparison
`!= "Closed"` (true on `undefined`) are made explicit below.
-/

namespace LoanDisbursement

/-- The fields of the viewed Loan Disbursement document (`frm.doc`) that the
form script reads.  Each string field is `Option String`: `none` models a
JavaScript `null`/`undefined` value. -/
structure LoanDisbursementDoc where
  docstatus : Int
  status : Option String
  repayment_schedule_type : Option String
  against_loan : Option String
  applicant_type : Option String
  applicant : Option String
  loan_product : Option String
  company : Option String
  name : Option String
deriving DecidableEq

/-- JavaScript truthiness of an optional string field: `null`/`undefined`
and the empty string are falsy, every other string is truthy.  This is the
semantics of `frm.doc.repayment_schedule_type` used as a bare condition. -/
def jsTruthy : Option String → Bool
  | none => false
  | some s => s ≠ ""

/-- The loose inequality `frm.doc.status != "Closed"`: comparing
`undefined` with a string yields `true`. -/
def statusNotClosed : Option String → Bool
  | none => true
  | some s => s ≠ "Closed"

/-- The filter object returned by the closure installed with
`frm.set_query('against_loan', ...)`: a `docstatus` constraint and an
`["in", [...]]` constraint on `status`. -/
structure QueryFilters where
  docstatus : Int
  status_in : List String
deriving DecidableEq

/-- The filters literal in the `refresh` hook:
`{docstatus: 1, status: ["in", ["Sanctioned", "Active", "Partially Disbursed"]]}`. -/
def against_loan_filters : QueryFilters :=
  { docstatus := 1
    status_in := ["Sanctioned", "Active", "Partially Disbursed"] }

/-- A custom button added via `frm.add_custom_button(label, handler, group)`:
recorded as its (label, group) pair. -/
structure CustomButton where
  label : String
  group : String
deriving DecidableEq

/-- The observable effects of the `refresh` form hook: the query filters
installed for the `against_loan` link field (the installed closure takes no
arguments and returns a constant object, so it is recorded as that object),
and the list of custom buttons added. -/
structure RefreshEffects where
  against_loan_query : QueryFilters
  custom_buttons : List CustomButton
deriving DecidableEq

/-- The `refresh` hook of the form script: always installs the
`against_loan` query; adds the "Loan Repayment" button (in the "Create"
group) exactly when
`frm.doc.docstatus == 1 && frm.doc.repayment_schedule_type && frm.doc.status != "Closed"`. -/
def refresh (doc : LoanDisbursementDoc) : RefreshEffects :=
  { against_loan_query := against_loan_filters
    custom_buttons :=
      if doc.docstatus == 1 && jsTruthy doc.repayment_schedule_type
          && statusNotClosed doc.status then
        [{ label := "Loan Repayment", group := "Create" }]
      else [] }

/-- The fixed list assigned to `frm.ignore_doctypes_on_cancel_all` by the
`setup` hook. -/
def cancel_all_ignore_list : List String :=
  ["Loan Security Deposit", "Loan Repayment Schedule", "Sales Invoice",
   "Loan Interest Accrual", "Loan Demand", "Loan Restructure",
   "Loan Repayment", "Process Loan Classification"]

/-- The form state touched by the `setup` hook: the viewed document and the
`ignore_doctypes_on_cancel_all` attribute of the form object. -/
structure FormState where
  doc : LoanDisbursementDoc
  ignore_doctypes_on_cancel_all : List String
deriving DecidableEq

/-- The `setup` form hook: assigns the fixed eight-element list to
`frm.ignore_doctypes_on_cancel_all` and touches nothing else. -/
def setup (frm : FormState) : FormState :=
  { frm with ignore_doctypes_on_cancel_all := cancel_all_ignore_list }

/-- The argument payload of the `frappe.call` issued by the
`make_repayment_entry` handler: exactly the seven keys of the `args`
object literal. -/
structure RepaymentCallArgs where
  loan : Option String
  applicant_type : Option String
  applicant : Option String
  loan_product : Option String
  company : Option String
  loan_disbursement : Option String
  as_dict : Int
deriving DecidableEq

/-- A remote call issued through `frappe.call`: the dotted method path and
the argument payload. -/
structure RemoteCall where
  method : String
  args : RepaymentCallArgs
deriving DecidableEq

/-- The single `frappe.call` issued by the `make_repayment_entry` handler,
with its `args` read off the viewed document. -/
def make_repayment_entry (doc : LoanDisbursementDoc) : RemoteCall :=
  { method := "lending.loan_management.doctype.loan.loan.make_repayment_entry"
    args :=
      { loan := doc.against_loan
        applicant_type := doc.applicant_type
        applicant := doc.applicant
        loan_product := doc.loan_product
        company := doc.company
        loan_disbursement := doc.name
        as_dict := 1 } }

/-- A dict-shaped record payload (`r.message`) as returned by the remote
operation, and equally a locally synced document: a `doctype` and a `name`. -/
structure SyncedDoc where
  doctype : String
  name : String
deriving DecidableEq

/-- Modelled from the spec: `frappe.model.sync` is part of the host
framework, not of this repository.  Per the spec it "converts the returned
payload into a local record representation", so on a single dict payload it
yields that record as the one synced document. -/
def frappe_model_sync (m : SyncedDoc) : List SyncedDoc := [m]

/-- A JavaScript runtime exception escaping the callback. -/
inductive JsError where
  | typeError (msg : String)
deriving DecidableEq

/-- A client-side route set via `frappe.set_route("Form", doctype, name)`. -/
structure Route where
  view : String
  doctype : String
  name : String
deriving DecidableEq

/-- The callback of the `frappe.call` in `make_repayment_entry`, translated
with JavaScript scoping kept intact: the body is

`if (r.message) var doc = frappe.model.sync(r.message)[0];`
`frappe.set_route("Form", doc.doctype, doc.name);`

`var doc` is hoisted to the top of the callback, the `if` (without braces)
guards only the assignment, and the `frappe.set_route` line runs
unconditionally.  When `doc` is still `undefined` — the message was absent,
or the synced array was empty so `[0]` is `undefined` — reading
`doc.doctype` throws a `TypeError`; otherwise the route is set.
`Except.ok r` means navigation to `r`; `Except.error e` means the
exception `e` propagates and no navigation happens. -/
def repayment_callback (message : Option SyncedDoc) : Except JsError Route :=
  let doc : Option SyncedDoc :=
    match message with
    | some m => (frappe_model_sync m).head?
    | none => none
  match doc with
  | some d => Except.ok { view := "Form", doctype := d.doctype, name := d.name }
  | none => Except.error
      (JsError.typeError "Cannot read properties of undefined")

/-- A record row as seen by the list view: the `status` field that
`get_indicator` reads, plus other fields (`name`, `docstatus`) that it
does not read.  `status` is a plain string here; the resolver concatenates
it into the filter clause. -/
structure ListViewDoc where
  status : String
  name : String
  docstatus : Int
deriving DecidableEq

/-- Modelled from the spec: frappe's message-translation helper `__` is part
of the host framework, not of this repository; with no translation
dictionary loaded it returns its argument, which the spec calls the
human-readable label. -/
def frappe_translate (s : String) : String := s

/-- The `status_color` object literal of `get_indicator`, as a property
lookup: an unmapped status yields `undefined` (`none`). -/
def status_color (s : String) : Option String :=
  if s = "Draft" then some "red"
  else if s = "Submitted" then some "blue"
  else if s = "Cancelled" then some "red"
  else if s = "Closed" then some "green"
  else none

/-- The list-view `get_indicator` resolver: returns the triple
`[__(doc.status), status_color[doc.status], "status,=," + doc.status]`. -/
def get_indicator (doc : ListViewDoc) : String × Option String × String :=
  (frappe_translate doc.status, status_color doc.status,
    "status,=," ++ doc.status)

/-- The boolean `frm.doc.status != "Closed"` holds exactly when the status
field is not the string "Closed" (an absent status also passes). -/
theorem statusNotClosed_iff (o : Option String) :
    statusNotClosed o = true ↔ o ≠ some "Closed" := by
  cases o with
  | none => simp [statusNotClosed]
  | some s => simp [statusNotClosed]

/-- Claim C1: the claim states that on a response without a message the
callback is a silent no-op with no exception.  The code disagrees: the
`frappe.set_route` line sits outside the body of `if (r.message)` (the
brace-less `if` guards only the `var doc` assignment), so with the message
absent the callback reads `doc.doctype` of `undefined` and a TypeError
propagates.  This theorem evaluates the embedded callback at that failing
input. -/
theorem claim_C1_callback_throws_without_message :
    repayment_callback none =
      Except.error (JsError.typeError "Cannot read properties of undefined") :=
  rfl

/-- Claim C2: the refresh handler adds the custom "Loan Repayment" button
(in the "Create" group) if and only if `docstatus = 1`, the
`repayment_schedule_type` field is truthy, and the status is not
"Closed". -/
theorem claim_C2_button_visibility (doc : LoanDisbursementDoc) :
    ({ label := "Loan Repayment", group := "Create" } : CustomButton) ∈
        (refresh doc).custom_buttons ↔
      doc.docstatus = 1 ∧ jsTruthy doc.repayment_schedule_type = true ∧
        doc.status ≠ some "Closed" := by
  simp only [refresh]
  split
  next h =>
    simp only [Bool.and_eq_true, beq_iff_eq, statusNotClosed_iff] at h
    simpa using ⟨h.1.1, h.1.2, h.2⟩
  next h =>
    simp only [Bool.and_eq_true, beq_iff_eq, statusNotClosed_iff, not_and] at h
    simp only [List.not_mem_nil, false_iff, not_and]
    intro h1 h2 h3
    exact absurd h3 (by simpa using h ⟨h1, h2⟩)

/-- Claim C3: with a record payload in the message, the callback syncs it
via `frappe.model.sync` and navigates to the Form route of exactly that
record's doctype and name. -/
theorem claim_C3_navigates_to_synced_record (m : SyncedDoc) :
    repayment_callback (some m) =
      Except.ok { view := "Form", doctype := m.doctype, name := m.name } :=
  rfl

/-- Claim C4: for each of the four mapped statuses, `get_indicator`
returns the documented color and the filter clause
`"status,=,"` concatenated with the status. -/
theorem claim_C4_mapped_status_indicators (d : ListViewDoc) :
    (d.status = "Draft" →
      get_indicator d = ("Draft", some "red", "status,=,Draft")) ∧
    (d.status = "Submitted" →
      get_indicator d = ("Submitted", some "blue", "status,=,Submitted")) ∧
    (d.status = "Cancelled" →
      get_indicator d = ("Cancelled", some "red", "status,=,Cancelled")) ∧
    (d.status = "Closed" →
      get_indicator d = ("Closed", some "green", "status,=,Closed")) := by
  refine ⟨fun h => ?_, fun h => ?_, fun h => ?_, fun h => ?_⟩ <;>
    simp [get_indicator, frappe_translate, status_color, h]

/-- Claim C4 witness: the theorem applied at one concrete list-view row
per mapped status. -/
theorem claim_C4_mapped_status_indicators_witness :
    get_indicator ⟨"Draft", "LD-1", 0⟩ = ("Draft", some "red", "status,=,Draft") ∧
    get_indicator ⟨"Submitted", "LD-2", 1⟩ =
      ("Submitted", some "blue", "status,=,Submitted") ∧
    get_indicator ⟨"Cancelled", "LD-3", 2⟩ =
      ("Cancelled", some "red", "status,=,Cancelled") ∧
    get_indicator ⟨"Closed", "LD-4", 1⟩ =
      ("Closed", some "green", "status,=,Closed") :=
  ⟨(claim_C4_mapped_status_indicators ⟨"Draft", "LD-1", 0⟩).1 rfl,
   (claim_C4_mapped_status_indicators ⟨"Submitted", "LD-2", 1⟩).2.1 rfl,
   (claim_C4_mapped_status_indicators ⟨"Cancelled", "LD-3", 2⟩).2.2.1 rfl,
   (claim_C4_mapped_status_indicators ⟨"Closed", "LD-4", 1⟩).2.2.2 rfl⟩

/-- Claim C5: whatever the viewed record holds, the query installed by
`refresh` for the `against_loan` link field is the fixed constraint
`docstatus = 1` and status in [Sanctioned, Active, Partially Disbursed]. -/
theorem claim_C5_against_loan_query_constant (doc : LoanDisbursementDoc) :
    (refresh doc).against_loan_query =
      { docstatus := 1
        status_in := ["Sanctioned", "Active", "Partially Disbursed"] } :=
  rfl

/-- Claim C6: the handler issues exactly one remote call, whose method is
`lending.loan_management.doctype.loan.loan.make_repayment_entry` and whose
argument payload is precisely the seven keys
loan, applicant_type, applicant, loan_product, company, loan_disbursement
and as_dict, read off the viewed record (`as_dict = 1`). -/
theorem claim_C6_call_payload (doc : LoanDisbursementDoc) :
    make_repayment_entry doc =
      { method := "lending.loan_management.doctype.loan.loan.make_repayment_entry"
        args :=
          { loan := doc.against_loan
            applicant_type := doc.applicant_type
            applicant := doc.applicant
            loan_product := doc.loan_product
            company := doc.company
            loan_disbursement := doc.name
            as_dict := 1 } } :=
  rfl

/-- Claim C7: on every status outside the mapped four, `get_indicator`
still returns the full triple — the label and the filter clause are
produced and only the color is absent; the unmapped branch cannot crash. -/
theorem claim_C7_unmapped_status_soft (d : ListViewDoc)
    (h : d.status ∉ (["Draft", "Submitted", "Cancelled", "Closed"] : List String)) :
    get_indicator d = (d.status, none, "status,=," ++ d.status) := by
  simp only [List.mem_cons, List.not_mem_nil, or_false, not_or] at h
  obtain ⟨h1, h2, h3, h4⟩ := h
  simp [get_indicator, frappe_translate, status_color, h1, h2, h3, h4]

/-- Claim C7 witness: the theorem applied at the unmapped status
"Sanctioned". -/
theorem claim_C7_unmapped_status_soft_witness :
    ("Sanctioned" : String) ∉
        (["Draft", "Submitted", "Cancelled", "Closed"] : List String) ∧
    get_indicator ⟨"Sanctioned", "LD-5", 1⟩ =
      ("Sanctioned", none, "status,=,Sanctioned") :=
  ⟨by decide, claim_C7_unmapped_status_soft ⟨"Sanctioned", "LD-5", 1⟩ (by decide)⟩

/-- Claim C8: the setup hook assigns exactly the fixed eight-element list
to the form's `ignore_doctypes_on_cancel_all` and leaves the viewed
document untouched. -/
theorem claim_C8_setup_ignore_list (frm : FormState) :
    (setup frm).ignore_doctypes_on_cancel_all =
      ["Loan Security Deposit", "Loan Repayment Schedule", "Sales Invoice",
       "Loan Interest Accrual", "Loan Demand", "Loan Restructure",
       "Loan Repayment", "Process Loan Classification"] ∧
    (setup frm).doc = frm.doc :=
  ⟨rfl, rfl⟩

/-- Claim C9: `get_indicator` depends only on the record's status — two
rows with equal status, however their other fields differ, yield identical
triples (the embedding is a pure function, so there are no side effects by
construction). -/
theorem claim_C9_status_only (d1 d2 : ListViewDoc)
    (h : d1.status = d2.status) :
    get_indicator d1 = get_indicator d2 := by
  simp [get_indicator, h]

/-- Claim C9 witness: the theorem applied to two concrete rows that agree
on status and differ in name and docstatus. -/
theorem claim_C9_status_only_witness :
    (⟨"Active", "LD-6", 1⟩ : ListViewDoc).status =
        (⟨"Active", "LD-7", 0⟩ : ListViewDoc).status ∧
    get_indicator ⟨"Active", "LD-6", 1⟩ = get_indicator ⟨"Active", "LD-7", 0⟩ :=
  ⟨rfl, claim_C9_status_only ⟨"Active", "LD-6", 1⟩ ⟨"Active", "LD-7", 0⟩ rfl⟩

/-- Claim C10: the status-to-color mapping is not injective — the distinct
statuses "Draft" and "Cancelled" both map to the color "red", so the badge
color alone cannot distinguish the two rows. -/
theorem claim_C10_color_not_injective :
    (⟨"Draft", "LD-8", 0⟩ : ListViewDoc).status ≠
        (⟨"Cancelled", "LD-9", 2⟩ : ListViewDoc).status ∧
    (get_indicator ⟨"Draft", "LD-8", 0⟩).2.1 = some "red" ∧
    (get_indicator ⟨"Cancelled", "LD-9", 2⟩).2.1 = some "red" :=
  ⟨by decide, rfl, rfl⟩

end LoanDisbursement
